import Mathlib

/-!
Verification of the Lootlook backend appraisal core.

Shallow embedding of:
- `backend/app/services/serpapi_service.py` (price extraction, IQR outlier
  filtering, price statistics),
- `backend/app/services/gemini_service.py` (identification error handling),
- `backend/app/services/appraiser_service.py` (item-name formatting, price
  display, confidence, rarity),
- `backend/app/schemas/loot.py` (`PriceDataResult`, `GeminiVisionResult`).

Python floats are modelled as rationals (`ℚ`); every price value appearing in
the statements below is exactly representable in binary floating point, so
the float / rational distinction does not affect any of them.  Python's
`round(x, 2)` and `f"{x:.0f}"` round half to even; this is modelled exactly.
Optional fields are `Option` values; Python truthiness (`if x:`) on an
optional string is "present and non-empty", on an optional float it is
"present and non-zero".

Python `str` methods are modelled by structurally recursive helpers over the
character list of a `String` (the library versions rest on well-founded
recursion, which the kernel cannot evaluate); each helper documents the
method it models.
-/

attribute [local semireducible] Rat.mul Rat.inv Rat.add Rat.sub Rat.ofScientific

/-! ### Python `str` method models -/

/-- Split `cs` at every non-overlapping occurrence of `sep` (non-empty),
left to right: Python `s.split(sep)`.  `fuel` is instantiated with the
length of `cs`, which suffices. -/
def splitOnGo (sep : List Char) : Nat → List Char → List (List Char)
  | _, [] => [[]]
  | 0, cs => [cs]
  | fuel + 1, c :: rest =>
    if sep.isPrefixOf (c :: rest) then
      [] :: splitOnGo sep fuel ((c :: rest).drop sep.length)
    else
      match splitOnGo sep fuel rest with
      | [] => [[c]]
      | p :: ps => (c :: p) :: ps

/-- Python `s.split(sep)` for a non-empty separator. -/
def pySplit (s sep : String) : List String :=
  (splitOnGo sep.toList s.toList.length s.toList).map String.mk

/-- Replace every non-overlapping occurrence of `pat` (non-empty) by `rep`,
left to right. -/
def replaceGo (pat rep : List Char) : Nat → List Char → List Char
  | _, [] => []
  | 0, cs => cs
  | fuel + 1, c :: rest =>
    if pat.isPrefixOf (c :: rest) then
      rep ++ replaceGo pat rep fuel ((c :: rest).drop pat.length)
    else
      c :: replaceGo pat rep fuel rest

/-- Python `s.replace(pat, rep)` for a non-empty pattern. -/
def pyReplace (s pat rep : String) : String :=
  String.mk (replaceGo pat.toList rep.toList s.toList.length s.toList)

/-- Python `s.strip()` (ASCII whitespace; the exotic Unicode whitespace
Python additionally strips never occurs in the statements below). -/
def pyStrip (s : String) : String :=
  String.mk (((s.toList.dropWhile Char.isWhitespace).reverse.dropWhile
    Char.isWhitespace).reverse)

/-- Python `s.lower()`. -/
def pyLower (s : String) : String := String.mk (s.toList.map Char.toLower)

/-- Python `s[:n]` (by code point, as in Python). -/
def pyTake (s : String) (n : Nat) : String := String.mk (s.toList.take n)

/-- Python `s[n:]`. -/
def pyDrop (s : String) (n : Nat) : String := String.mk (s.toList.drop n)

/-- Python `len(s)`. -/
def pyLen (s : String) : Nat := s.toList.length

/-- Python `s.startswith(pat)`. -/
def pyStartsWith (s pat : String) : Bool := pat.toList.isPrefixOf s.toList

/-- Python `sep.join(parts)`. -/
def pyJoin (sep : String) (parts : List String) : String :=
  String.mk (List.intercalate sep.toList (parts.map String.toList))

/-- Python `s.rsplit(" ", 1)[0]`: the text before the last space, the whole
string when it contains no space. -/
def rsplitSpaceFirst (s : String) : String :=
  let cs := s.toList
  if cs.contains ' ' then
    String.mk (((cs.reverse.dropWhile (fun c => c ≠ ' ')).drop 1).reverse)
  else s

/-! ### Truthiness, rounding, list statistics -/

/-- Python truthiness of an optional string: `None` and `""` are falsy. -/
def truthyS (s : Option String) : Bool :=
  match s with
  | none => false
  | some s => !s.toList.isEmpty

/-- Python truthiness of an optional number: `None` and `0` are falsy. -/
def truthyQ (q : Option ℚ) : Bool :=
  match q with
  | none => false
  | some q => decide (q ≠ 0)

/-- Round to the nearest integer, ties to even: the rounding used by Python's
`round` and by `f"{x:.0f}"` formatting (on our exact rational model). -/
def roundHalfEven (x : ℚ) : ℤ :=
  if x - ⌊x⌋ < 1/2 then ⌊x⌋
  else if x - ⌊x⌋ > 1/2 then ⌊x⌋ + 1
  else if ⌊x⌋ % 2 = 0 then ⌊x⌋ else ⌊x⌋ + 1

/-- Python `round(x, 2)`. -/
def round2 (x : ℚ) : ℚ := (roundHalfEven (x * 100) : ℚ) / 100

/-- Python `statistics.mean` (only ever applied to non-empty lists below;
on `[]` Python raises, this total model returns `0`). -/
def mean (l : List ℚ) : ℚ := l.sum / l.length

/-- Python `min` of a non-empty list (`0` on `[]`, unused there). -/
def listMin : List ℚ → ℚ
  | [] => 0
  | h :: t => t.foldl min h

/-- Python `max` of a non-empty list (`0` on `[]`, unused there). -/
def listMax : List ℚ → ℚ
  | [] => 0
  | h :: t => t.foldl max h

/-- Python `sorted` on numbers: ascending order. -/
def pySorted (l : List ℚ) : List ℚ := l.insertionSort (· ≤ ·)

/-! ### Python `float()` on cleaned price strings

Models `float(s)` on the strings reaching it in
`SerpApiPricingService._parse_price_string`: optional sign, decimal digits
with at most one dot, optional exponent, surrounding whitespace ignored.
(`inf`/`nan` and digit-group underscores are not modelled; no claim involves
them, and `ℚ` has no infinities.) -/

/-- A non-empty all-digit string as a number, `none` otherwise. -/
def parseDigits (s : String) : Option Nat :=
  if s.toList.isEmpty then none
  else if s.toList.all Char.isDigit then
    some (s.toList.foldl (fun a c => 10 * a + (c.toNat - 48)) 0)
  else none

/-- Mantissa part: `d+`, `d+.d*`, `.d+` or `d+.`. -/
def parseMantissa (s : String) : Option ℚ :=
  match pySplit s "." with
  | [i] => (parseDigits i).map (fun n => (n : ℚ))
  | [i, f] =>
    if i.toList.isEmpty && f.toList.isEmpty then none
    else
      let iv := if i.toList.isEmpty then some 0 else parseDigits i
      let fv := if f.toList.isEmpty then some 0 else parseDigits f
      match iv, fv with
      | some a, some b => some ((a : ℚ) + (b : ℚ) / (10 : ℚ) ^ pyLen f)
      | _, _ => none
  | _ => none

/-- Exponent part: optional sign then digits. -/
def parseExp (s : String) : Option ℤ :=
  if pyStartsWith s "+" then (parseDigits (pyDrop s 1)).map Int.ofNat
  else if pyStartsWith s "-" then (parseDigits (pyDrop s 1)).map (fun n => -(n : ℤ))
  else (parseDigits s).map Int.ofNat

/-- Unsigned float literal, exponent marker case-insensitive. -/
def parseFloatNoSign (s : String) : Option ℚ :=
  match pySplit (pyLower s) "e" with
  | [m] => parseMantissa m
  | [m, e] =>
    match parseMantissa m, parseExp e with
    | some q, some z => some (q * (10 : ℚ) ^ z)
    | _, _ => none
  | _ => none

/-- Python `float(s)` (returning `none` where Python raises `ValueError`). -/
def pyFloat (s : String) : Option ℚ :=
  let t := pyStrip s
  if pyStartsWith t "+" then parseFloatNoSign (pyDrop t 1)
  else if pyStartsWith t "-" then (parseFloatNoSign (pyDrop t 1)).map Neg.neg
  else parseFloatNoSign t

/-! ### Data model (`backend/app/schemas/loot.py`) -/

/-- `PriceDataResult` (loot.py lines 64-71). -/
structure PriceDataResult where
  min_price : Option ℚ := none
  max_price : Option ℚ := none
  avg_price : Option ℚ := none
  currency : String := "USD"
  source_count : ℤ := 0
deriving DecidableEq

/-- `GeminiVisionResult` (loot.py lines 53-61). -/
structure GeminiVisionResult where
  brand : Option String := none
  model : Option String := none
  condition : Option String := none
  color : Option String := none
  category : Option String := none
  raw_description : Option String := none
deriving DecidableEq

/-- One entry of `shopping_results` as consumed by `_extract_prices`
(serpapi_service.py lines 101-108): the `extracted_price` field when the
upstream response carries one, and the raw `price` string
(`item.get("price", "")`). -/
structure ShoppingItem where
  extracted_price : Option ℚ := none
  price : String := ""
deriving DecidableEq

/-! ### `SerpApiPricingService` (serpapi_service.py) -/

/-- `_parse_price_string` (serpapi_service.py lines 141-159). -/
def parse_price_string (price_str : String) : Option ℚ :=
  if price_str.toList.isEmpty then none
  else
    let cleaned := pyStrip (pyReplace (pyReplace price_str "$" "") "," "")
    let cleaned :=
      if (pySplit cleaned " - ").length > 1 then (pySplit cleaned " - ").headD cleaned
      else cleaned
    let cleaned :=
      if (pySplit (pyLower cleaned) " to ").length > 1 then
        (pySplit (pyLower cleaned) " to ").headD cleaned
      else cleaned
    pyFloat cleaned

/-- `_extract_prices` (serpapi_service.py lines 97-113): take
`extracted_price` when present, else parse the price string; keep only
positive values. -/
def extract_prices (shopping_results : List ShoppingItem) : List ℚ :=
  shopping_results.filterMap (fun item =>
    let price :=
      match item.extracted_price with
      | some p => some p
      | none => parse_price_string item.price
    match price with
    | some p => if 0 < p then some p else none
    | none => none)

/-- `sorted_prices[q1_idx]` with `q1_idx = n // 4` (serpapi_service.py
lines 125-131, also lines 76-79): the positional first quartile. -/
def iqr_q1 (l : List ℚ) : ℚ := (pySorted l).getD ((pySorted l).length / 4) 0

/-- `sorted_prices[q3_idx]` with `q3_idx = (3 * n) // 4` (serpapi_service.py
lines 125-132, also lines 76-80): the positional third quartile. -/
def iqr_q3 (l : List ℚ) : ℚ := (pySorted l).getD (3 * (pySorted l).length / 4) 0

/-- `_remove_outliers` (serpapi_service.py lines 115-139): IQR filtering with
positional quartiles (`iqr = q3 - q1`, bounds `q1 - 1.5*iqr` and
`q3 + 1.5*iqr`), skipped below 4 observations. -/
def remove_outliers (prices : List ℚ) : List ℚ :=
  if prices.length < 4 then prices
  else
    prices.filter (fun p =>
      decide (iqr_q1 prices - 3/2 * (iqr_q3 prices - iqr_q1 prices) ≤ p ∧
              p ≤ iqr_q3 prices + 3/2 * (iqr_q3 prices - iqr_q1 prices)))

/-- `get_price_data` lines 74-83: the reported low/high — recomputed
positional quartiles when the filtered set has at least 4 values, min/max
otherwise. -/
def price_range (filtered_prices : List ℚ) : ℚ × ℚ :=
  if 4 ≤ filtered_prices.length then
    (iqr_q1 filtered_prices, iqr_q3 filtered_prices)
  else
    (listMin filtered_prices, listMax filtered_prices)

/-- `get_price_data` lines 66-69: outlier filtering, falling back to the
original list when the filter removes everything. -/
def outlier_filtered (prices : List ℚ) : List ℚ :=
  if (remove_outliers prices).isEmpty then prices else remove_outliers prices

/-- `get_price_data` lines 65-91: statistics on a non-empty extracted price
list — outlier filtering with fall-back, mean, range, rounding to 2 decimal
places. -/
def price_stats (prices : List ℚ) : PriceDataResult :=
  { min_price := some (round2 (price_range (outlier_filtered prices)).1)
    max_price := some (round2 (price_range (outlier_filtered prices)).2)
    avg_price := some (round2 (mean (outlier_filtered prices)))
    currency := "USD"
    source_count := ((outlier_filtered prices).length : ℤ) }

/-- `get_price_data` (serpapi_service.py lines 28-95).  The argument is the
outcome of the upstream SerpApi call (lines 40-53): `.error e` when the call
raises, `.ok shopping_results` otherwise.  The `except Exception` handler
(lines 93-95) catches every failure and returns an empty result, so the
function as a whole is total and never propagates an error. -/
def get_price_data (upstream : Except String (List ShoppingItem)) : PriceDataResult :=
  match upstream with
  | .error _ => { source_count := 0 }
  | .ok shopping_results =>
    if shopping_results.isEmpty then { source_count := 0 }
    else
      let prices := extract_prices shopping_results
      if prices.isEmpty then { source_count := (shopping_results.length : ℤ) }
      else price_stats prices

/-! ### `GeminiVisionService` (gemini_service.py) -/

/-- `identify_item` (gemini_service.py lines 64-100).  The argument is the
outcome of the try block (lines 74-92, the Gemini call plus
`_parse_response`): `.error e` when it raises, `.ok result` otherwise.  The
`except Exception` handler (lines 94-100) turns every failure into a
placeholder result. -/
def identify_item (attempt : Except String GeminiVisionResult) : GeminiVisionResult :=
  match attempt with
  | .ok r => r
  | .error e =>
    { category := some "Unknown"
      raw_description := some ("Unable to identify item: " ++ e) }

/-! ### `AppraiserService` (appraiser_service.py) -/

/-- `_format_item_name` (appraiser_service.py lines 228-255). -/
def format_item_name (v : GeminiVisionResult) : String :=
  let parts :=
    (if truthyS v.brand then [v.brand.getD ""] else []) ++
    (if truthyS v.model then [v.model.getD ""] else [])
  if !parts.isEmpty then pyJoin " " parts
  else if truthyS v.raw_description then
    let desc := pyStrip (v.raw_description.getD "")
    if (pySplit desc ". ").length > 1 then (pySplit desc ". ").headD desc
    else if 50 < pyLen desc then rsplitSpaceFirst (pyTake desc 50) ++ "..."
    else desc
  else if truthyS v.category && decide (v.category.getD "" ≠ "Unknown") then
    v.category.getD "" ++ " Item"
  else "Unidentified Item"

/-- `_format_price_range` (appraiser_service.py lines 257-274).  Note the
Python truthiness test `if price_data.min_price and price_data.max_price:`
on line 265: a bound that is `None` or `0.0` sends the function to the
single-value display. -/
def format_price_range (p : PriceDataResult) : String :=
  match p.avg_price with
  | none => "Price unavailable"
  | some avg =>
    if truthyQ p.min_price && truthyQ p.max_price then
      let spread := p.max_price.getD 0 - p.min_price.getD 0
      if spread ≤ avg * 0.3 then
        "~$" ++ toString (roundHalfEven avg)
      else
        "$" ++ toString (roundHalfEven (p.min_price.getD 0)) ++ " - $" ++
          toString (roundHalfEven (p.max_price.getD 0))
    else "~$" ++ toString (roundHalfEven avg)

/-- `_calculate_confidence` (appraiser_service.py lines 276-302). -/
def calculate_confidence (v : GeminiVisionResult) (p : PriceDataResult) : ℚ :=
  let score : ℚ := 0.5
  let score := if truthyS v.brand then score + 0.15 else score
  let score := if truthyS v.model then score + 0.15 else score
  let score := if truthyS v.condition then score + 0.05 else score
  let score :=
    if p.source_count ≥ 10 then score + 0.15
    else if p.source_count ≥ 5 then score + 0.10
    else score
  min score 1.0

/-- `_calculate_rarity` (appraiser_service.py lines 319-340). -/
def calculate_rarity (p : PriceDataResult) : String :=
  match p.avg_price with
  | none => "Unknown"
  | some avg =>
    if avg > 500 ∧ p.source_count < 5 then "Legendary"
    else if avg > 300 ∨ p.source_count < 3 then "Epic"
    else if avg > 150 ∨ p.source_count < 8 then "Rare"
    else if avg > 75 then "Uncommon"
    else "Common"

/-! ### Spec-side definitions (for refinement claims) -/

/-- Modelled from the spec's rarity table: first match wins, in the order
Legendary, Epic, Rare, Uncommon, Common; `Unknown` without an average. -/
def raritySpec (p : PriceDataResult) : String :=
  match p.avg_price with
  | none => "Unknown"
  | some avg =>
    if 500 < avg ∧ p.source_count < 5 then "Legendary"
    else if 300 < avg ∨ p.source_count < 3 then "Epic"
    else if 150 < avg ∨ p.source_count < 8 then "Rare"
    else if 75 < avg then "Uncommon"
    else "Common"

/-- Modelled from the amended display claim: "Price unavailable" without an
average; with both bounds present and non-zero, the tight-spread single value
or the low-high range; in every other case the single approximate value. -/
def displaySpec (p : PriceDataResult) : String :=
  match p.avg_price with
  | none => "Price unavailable"
  | some avg =>
    match p.min_price, p.max_price with
    | some lo, some hi =>
      if lo ≠ 0 ∧ hi ≠ 0 then
        if hi - lo ≤ 0.3 * avg then "~$" ++ toString (roundHalfEven avg)
        else "$" ++ toString (roundHalfEven lo) ++ " - $" ++ toString (roundHalfEven hi)
      else "~$" ++ toString (roundHalfEven avg)
    | _, _ => "~$" ++ toString (roundHalfEven avg)

/-- Category fall-back of the item-name rule. -/
def itemNameCategoryFallback (v : GeminiVisionResult) : String :=
  match v.category with
  | some c => if !c.toList.isEmpty && decide (c ≠ "Unknown") then c ++ " Item" else "Unidentified Item"
  | none => "Unidentified Item"

/-- Modelled from the amended item-name claim, for results with neither brand
nor model truthy: the text before the first ". " of the stripped description
when such a boundary exists (unbounded length); else, when the stripped
description exceeds 50 characters, its first 50 characters cut back to before
the last space among them (kept whole when they contain none) with "..."
appended; else the stripped description itself; without a truthy description,
the category suffixed with " Item" when truthy and distinct from "Unknown",
else "Unidentified Item". -/
def itemNameSpec (v : GeminiVisionResult) : String :=
  match v.raw_description with
  | some rd =>
    if rd.toList.isEmpty then itemNameCategoryFallback v
    else
      let stripped := pyStrip rd
      match pySplit stripped ". " with
      | _ :: _ :: _ => (pySplit stripped ". ").headD stripped
      | _ =>
        if 50 < pyLen stripped then rsplitSpaceFirst (pyTake stripped 50) ++ "..."
        else stripped
  | none => itemNameCategoryFallback v

/-! ### Embedding validation (spec scenarios, not claims) -/

/-- Parsing-stage check: currency symbol and thousands separator stripped. -/
theorem parse_check_currency : parse_price_string "$1,499.99" = some (149999/100) := by decide

/-- Parsing-stage check: on a range "A - B" the first bound is taken. -/
theorem parse_check_range : parse_price_string "$100 - $150" = some 100 := by decide

/-- Parsing-stage check: "A to B" is handled case-insensitively. -/
theorem parse_check_to : parse_price_string "100 TO 150" = some 100 := by decide

/-- Parsing-stage check: unparsable text is rejected. -/
theorem parse_check_reject : parse_price_string "free" = none := by decide

/-- Scenario check: first-sentence extraction in the item name. -/
theorem item_name_check_sentence :
    format_item_name ⟨none, none, none, none, none,
      some "A worn leather jacket. Minor scuffing on sleeves."⟩ = "A worn leather jacket" := by
  decide

/-! ### Rounding lemmas -/

theorem floor_le_roundHalfEven (x : ℚ) : ⌊x⌋ ≤ roundHalfEven x := by
  unfold roundHalfEven
  split_ifs <;> omega

theorem roundHalfEven_le_floor_add_one (x : ℚ) : roundHalfEven x ≤ ⌊x⌋ + 1 := by
  unfold roundHalfEven
  split_ifs <;> omega

theorem roundHalfEven_mono {x y : ℚ} (h : x ≤ y) : roundHalfEven x ≤ roundHalfEven y := by
  have hf : ⌊x⌋ ≤ ⌊y⌋ := Int.floor_le_floor h
  rcases eq_or_lt_of_le hf with heq | hlt
  · unfold roundHalfEven
    rw [← heq]
    split_ifs <;> first | omega | linarith
  · calc roundHalfEven x ≤ ⌊x⌋ + 1 := roundHalfEven_le_floor_add_one x
      _ ≤ ⌊y⌋ := hlt
      _ ≤ roundHalfEven y := floor_le_roundHalfEven y

theorem round2_mono {x y : ℚ} (h : x ≤ y) : round2 x ≤ round2 y := by
  unfold round2
  have h1 : roundHalfEven (x * 100) ≤ roundHalfEven (y * 100) :=
    roundHalfEven_mono (by linarith)
  have h2 : ((roundHalfEven (x * 100) : ℤ) : ℚ) ≤ ((roundHalfEven (y * 100) : ℤ) : ℚ) := by
    exact_mod_cast h1
  exact (div_le_div_iff_of_pos_right (by norm_num)).mpr h2

/-! ### Min / max / mean lemmas -/

theorem foldl_min_le_init (t : List ℚ) (h : ℚ) : t.foldl min h ≤ h := by
  induction t generalizing h with
  | nil => simp
  | cons a t ih =>
    have he : (a :: t).foldl min h = t.foldl min (min h a) := rfl
    rw [he]
    exact le_trans (ih (min h a)) (min_le_left h a)

theorem foldl_min_le_mem {x : ℚ} (t : List ℚ) (h : ℚ) (hx : x ∈ t) : t.foldl min h ≤ x := by
  induction t generalizing h with
  | nil => cases hx
  | cons a t ih =>
    have he : (a :: t).foldl min h = t.foldl min (min h a) := rfl
    rw [he]
    rcases List.mem_cons.mp hx with rfl | hx'
    · exact le_trans (foldl_min_le_init t (min h x)) (min_le_right h x)
    · exact ih (min h a) hx'

theorem listMin_le_mem {x : ℚ} {l : List ℚ} (hx : x ∈ l) : listMin l ≤ x := by
  cases l with
  | nil => cases hx
  | cons a t =>
    unfold listMin
    rcases List.mem_cons.mp hx with rfl | hx'
    · exact foldl_min_le_init t x
    · exact foldl_min_le_mem t a hx'

theorem init_le_foldl_max (t : List ℚ) (h : ℚ) : h ≤ t.foldl max h := by
  induction t generalizing h with
  | nil => simp
  | cons a t ih =>
    have he : (a :: t).foldl max h = t.foldl max (max h a) := rfl
    rw [he]
    exact le_trans (le_max_left h a) (ih (max h a))

theorem mem_le_foldl_max {x : ℚ} (t : List ℚ) (h : ℚ) (hx : x ∈ t) : x ≤ t.foldl max h := by
  induction t generalizing h with
  | nil => cases hx
  | cons a t ih =>
    have he : (a :: t).foldl max h = t.foldl max (max h a) := rfl
    rw [he]
    rcases List.mem_cons.mp hx with rfl | hx'
    · exact le_trans (le_max_right h x) (init_le_foldl_max t (max h x))
    · exact ih (max h a) hx'

theorem mem_le_listMax {x : ℚ} {l : List ℚ} (hx : x ∈ l) : x ≤ listMax l := by
  cases l with
  | nil => cases hx
  | cons a t =>
    unfold listMax
    rcases List.mem_cons.mp hx with rfl | hx'
    · exact init_le_foldl_max t x
    · exact mem_le_foldl_max t a hx'

theorem listMin_le_mean {l : List ℚ} (hl : l ≠ []) : listMin l ≤ mean l := by
  have hpos : 0 < (l.length : ℚ) := by
    have := List.length_pos.mpr hl
    exact_mod_cast this
  unfold mean
  rw [le_div_iff₀ hpos]
  have h1 : l.length • listMin l ≤ l.sum :=
    List.card_nsmul_le_sum l _ (fun x hx => listMin_le_mem hx)
  rw [nsmul_eq_mul] at h1
  linarith

theorem mean_le_listMax {l : List ℚ} (hl : l ≠ []) : mean l ≤ listMax l := by
  have hpos : 0 < (l.length : ℚ) := by
    have := List.length_pos.mpr hl
    exact_mod_cast this
  unfold mean
  rw [div_le_iff₀ hpos]
  have h1 : l.sum ≤ l.length • listMax l :=
    List.sum_le_card_nsmul l _ (fun x hx => mem_le_listMax hx)
  rw [nsmul_eq_mul] at h1
  linarith

theorem listMin_le_listMax {l : List ℚ} (hl : l ≠ []) : listMin l ≤ listMax l :=
  le_trans (listMin_le_mean hl) (mean_le_listMax hl)

/-! ### Sortedness lemmas -/

theorem pySorted_sorted (l : List ℚ) : (pySorted l).Sorted (· ≤ ·) :=
  List.sorted_insertionSort _ l

theorem pySorted_perm (l : List ℚ) : List.Perm (pySorted l) l :=
  List.perm_insertionSort _ l

theorem pySorted_length (l : List ℚ) : (pySorted l).length = l.length :=
  (pySorted_perm l).length_eq

theorem pySorted_getD_le {l : List ℚ} {i j : ℕ} (hij : i ≤ j) (hj : j < (pySorted l).length) :
    (pySorted l).getD i 0 ≤ (pySorted l).getD j 0 := by
  have hi : i < (pySorted l).length := lt_of_le_of_lt hij hj
  rw [List.getD_eq_getElem _ 0 hi, List.getD_eq_getElem _ 0 hj]
  have := (pySorted_sorted l).rel_get_of_le (a := ⟨i, hi⟩) (b := ⟨j, hj⟩) hij
  simpa [List.get_eq_getElem] using this

theorem pySorted_getD_mem {l : List ℚ} {i : ℕ} (hi : i < (pySorted l).length) :
    (pySorted l).getD i 0 ∈ l := by
  rw [List.getD_eq_getElem _ 0 hi]
  exact (pySorted_perm l).mem_iff.mp (List.getElem_mem hi)

theorem iqr_q1_le_iqr_q3 {l : List ℚ} (hl : l ≠ []) : iqr_q1 l ≤ iqr_q3 l := by
  have hlen := pySorted_length l
  have hpos : 0 < l.length := List.length_pos.mpr hl
  exact pySorted_getD_le (by omega) (by omega)

theorem iqr_q1_mem {l : List ℚ} (hl : l ≠ []) : iqr_q1 l ∈ l := by
  have hlen := pySorted_length l
  have hpos : 0 < l.length := List.length_pos.mpr hl
  exact pySorted_getD_mem (by omega)

/-! ### Engine-level lemmas -/

theorem remove_outliers_ne_nil {prices : List ℚ} (h : prices ≠ []) :
    remove_outliers prices ≠ [] := by
  unfold remove_outliers
  split_ifs with hlen
  · exact h
  · apply List.ne_nil_of_mem (a := iqr_q1 prices)
    rw [List.mem_filter]
    refine ⟨iqr_q1_mem h, ?_⟩
    rw [decide_eq_true_eq]
    have hq := iqr_q1_le_iqr_q3 h
    constructor <;> linarith

theorem outlier_filtered_ne_nil {prices : List ℚ} (h : prices ≠ []) :
    outlier_filtered prices ≠ [] := by
  unfold outlier_filtered
  split_ifs with he
  · exact h
  · intro hc
    rw [hc] at he
    simp at he

theorem price_range_le {l : List ℚ} (hl : l ≠ []) : (price_range l).1 ≤ (price_range l).2 := by
  unfold price_range
  split_ifs with h4
  · exact iqr_q1_le_iqr_q3 hl
  · exact listMin_le_listMax hl

theorem price_range_bounds_small {l : List ℚ} (hl : l ≠ []) (h4 : l.length < 4) :
    (price_range l).1 ≤ mean l ∧ mean l ≤ (price_range l).2 := by
  unfold price_range
  rw [if_neg (by omega)]
  exact ⟨listMin_le_mean hl, mean_le_listMax hl⟩

theorem price_stats_bounds {prices : List ℚ} (hne : prices ≠ []) {lo hi av : ℚ}
    (hlo : (price_stats prices).min_price = some lo)
    (hhi : (price_stats prices).max_price = some hi)
    (hav : (price_stats prices).avg_price = some av) :
    lo ≤ hi ∧ ((price_stats prices).source_count < 4 → lo ≤ av ∧ av ≤ hi) := by
  have hf : outlier_filtered prices ≠ [] := outlier_filtered_ne_nil hne
  simp only [price_stats, Option.some.injEq] at hlo hhi hav
  subst hlo hhi hav
  refine ⟨round2_mono (price_range_le hf), fun hcount => ?_⟩
  have h4 : (outlier_filtered prices).length < 4 := by
    simp only [price_stats] at hcount
    exact_mod_cast hcount
  have hb := price_range_bounds_small hf h4
  exact ⟨round2_mono hb.1, round2_mono hb.2⟩

/-! ### Claim C1 -/

/-- C1 counterexample: for raw prices 86, 100, 100, 110 the IQR filter keeps
all four observations, the recomputed positional quartiles give low = 100 and
high = 110, but the average of the whole filtered set is 99 — sampleCount is
4 > 0 and all three fields are present, yet low ≤ average fails. -/
theorem C1_counterexample :
    get_price_data (.ok [⟨some 86, ""⟩, ⟨some 100, ""⟩, ⟨some 100, ""⟩, ⟨some 110, ""⟩]) =
      { min_price := some 100, max_price := some 110, avg_price := some 99,
        currency := "USD", source_count := 4 } ∧
    ¬ ((100 : ℚ) ≤ 99) := by
  constructor
  · decide
  · decide

/-- C1 (amended): every summary produced by `get_price_data` with low, high
and average present satisfies low ≤ high, and when `sampleCount < 4` (so
low/high are the min and max of the filtered set) also
low ≤ average ≤ high after rounding.  With at least 4 filtered values the
low/high are the recomputed positional quartiles Q1/Q3, and the average —
the mean of the whole filtered set — can fall outside [Q1, Q3] (see the
counterexample). -/
theorem C1_price_summary_order (u : Except String (List ShoppingItem)) (lo hi av : ℚ)
    (hlo : (get_price_data u).min_price = some lo)
    (hhi : (get_price_data u).max_price = some hi)
    (hav : (get_price_data u).avg_price = some av) :
    lo ≤ hi ∧ ((get_price_data u).source_count < 4 → lo ≤ av ∧ av ≤ hi) := by
  match u with
  | .error e => simp [get_price_data] at hlo
  | .ok items =>
    by_cases hie : items.isEmpty
    · simp [get_price_data, hie] at hlo
    · by_cases hpe : (extract_prices items).isEmpty
      · simp [get_price_data, hie, hpe] at hlo
      · have hne : extract_prices items ≠ [] := by
          intro hc
          rw [hc] at hpe
          simp at hpe
        have hgp : get_price_data (.ok items) = price_stats (extract_prices items) := by
          simp [get_price_data, hie, hpe]
        rw [hgp] at hlo hhi hav ⊢
        exact price_stats_bounds hne hlo hhi hav

/-- C1 witness: the amended theorem applied at the three-price input
10, 20, 30 (sampleCount 3 < 4; low 10 ≤ average 20 ≤ high 30). -/
theorem C1_price_summary_order_witness :
    (get_price_data (.ok [⟨some 10, ""⟩, ⟨some 20, ""⟩, ⟨some 30, ""⟩])).min_price = some 10 ∧
    ((10 : ℚ) ≤ 30 ∧
     ((get_price_data (.ok [⟨some 10, ""⟩, ⟨some 20, ""⟩, ⟨some 30, ""⟩])).source_count < 4 →
       (10 : ℚ) ≤ 20 ∧ (20 : ℚ) ≤ 30)) :=
  ⟨by decide,
   C1_price_summary_order (.ok [⟨some 10, ""⟩, ⟨some 20, ""⟩, ⟨some 30, ""⟩]) 10 30 20
     (by decide) (by decide) (by decide)⟩

/-! ### Claim C2 -/

/-- C2 counterexample: one shopping result with no extracted price and an
empty price string yields zero valid observations, yet the returned
sampleCount is 1 — the raw shopping-result count — not 0. -/
theorem C2_counterexample :
    get_price_data (.ok [⟨none, ""⟩]) =
      { min_price := none, max_price := none, avg_price := none,
        currency := "USD", source_count := 1 } ∧
    (1 : ℤ) ≠ 0 := by
  constructor
  · decide
  · decide

/-- C2 (amended): when the raw shopping results yield zero valid (positive,
parsable) price observations, the numeric fields are all absent and
sampleCount equals the raw shopping-result count — 0 exactly when the raw
result list itself is empty. -/
theorem C2_no_valid_prices (items : List ShoppingItem)
    (h : extract_prices items = []) :
    get_price_data (.ok items) =
      { min_price := none, max_price := none, avg_price := none,
        currency := "USD", source_count := (items.length : ℤ) } := by
  match items with
  | [] => decide
  | a :: t => simp [get_price_data, h]

/-- C2 witness: the amended theorem applied to a single unparsable shopping
result. -/
theorem C2_no_valid_prices_witness :
    extract_prices [⟨none, ""⟩] = [] ∧
    get_price_data (.ok [⟨none, ""⟩]) =
      { min_price := none, max_price := none, avg_price := none,
        currency := "USD", source_count := (([(⟨none, ""⟩ : ShoppingItem)]).length : ℤ) } :=
  ⟨by decide, C2_no_valid_prices [⟨none, ""⟩] (by decide)⟩

/-! ### Claim C3 -/

/-- C3 counterexample: on upstream failure the pricing service returns the
degraded empty `PriceDataResult` and the identification service returns a
placeholder result — exactly the degraded reports the claim says are never
produced; no error is surfaced (both embedded functions are total because
the `except Exception` handlers catch everything). -/
theorem C3_counterexample :
    get_price_data (.error "network error") =
      { min_price := none, max_price := none, avg_price := none,
        currency := "USD", source_count := 0 } ∧
    identify_item (.error "quota exceeded") =
      { brand := none, model := none, condition := none, color := none,
        category := some "Unknown",
        raw_description := some "Unable to identify item: quota exceeded" } := by
  constructor
  · rfl
  · rfl

/-- C3 (amended): every upstream failure is swallowed, not surfaced: the
pricing service catches the exception and returns an empty `PriceDataResult`
with sampleCount 0, and the identification service returns a placeholder
with category "Unknown" and a description embedding the error text.  No
`PricingError`/`IdentificationError` type exists in the code. -/
theorem C3_errors_swallowed (e : String) :
    get_price_data (.error e) =
      { min_price := none, max_price := none, avg_price := none,
        currency := "USD", source_count := 0 } ∧
    identify_item (.error e) =
      { brand := none, model := none, condition := none, color := none,
        category := some "Unknown",
        raw_description := some ("Unable to identify item: " ++ e) } :=
  ⟨rfl, rfl⟩

/-! ### Claim C4 -/

/-- C4: on any input with a non-empty valid price list, if IQR filtering
removed every observation the engine would fall back to the original list
(sampleCount = original valid observation count), and in all cases the
returned sampleCount is positive — never zero when raw valid samples
existed. -/
theorem C4_outlier_fallback (items : List ShoppingItem)
    (h : extract_prices items ≠ []) :
    (remove_outliers (extract_prices items) = [] →
      (get_price_data (.ok items)).source_count = ((extract_prices items).length : ℤ)) ∧
    0 < (get_price_data (.ok items)).source_count := by
  have hie : items.isEmpty = false := by
    cases items with
    | nil => exact absurd rfl h
    | cons a t => rfl
  have hpe : (extract_prices items).isEmpty = false := by
    cases hx : extract_prices items with
    | nil => exact absurd hx h
    | cons a t => rfl
  have hgp : get_price_data (.ok items) = price_stats (extract_prices items) := by
    simp [get_price_data, hie, hpe]
  rw [hgp]
  constructor
  · intro hro
    simp [price_stats, outlier_filtered, hro]
  · simp only [price_stats]
    have hne := outlier_filtered_ne_nil h
    have hl : 0 < (outlier_filtered (extract_prices items)).length := List.length_pos.mpr hne
    exact_mod_cast hl

/-- C4 witness: the theorem applied at a single valid price. -/
theorem C4_outlier_fallback_witness :
    extract_prices [⟨some 1, ""⟩] ≠ [] ∧
    ((remove_outliers (extract_prices [⟨some 1, ""⟩]) = [] →
      (get_price_data (.ok [⟨some 1, ""⟩])).source_count =
        ((extract_prices [⟨some 1, ""⟩]).length : ℤ)) ∧
     0 < (get_price_data (.ok [⟨some 1, ""⟩])).source_count) :=
  ⟨by decide, C4_outlier_fallback [⟨some 1, ""⟩] (by decide)⟩

/-! ### Claim C5 -/

/-- C5: the rarity tier agrees everywhere with the spec's first-match-wins
table (Legendary, Epic, Rare, Uncommon, Common in that order; Unknown
without an average); in particular average 200 with sampleCount 2 is Epic —
the Epic test's `sources < 3` disjunct fires before the Rare `avg > 150`
test. -/
theorem C5_rarity_first_match :
    (∀ p : PriceDataResult, calculate_rarity p = raritySpec p) ∧
    calculate_rarity { avg_price := some 200, source_count := 2 } = "Epic" := by
  constructor
  · intro p
    cases p with
    | mk mn mx av cur sc => cases av <;> rfl
  · decide

/-! ### Claim C6 -/

/-- C6: the confidence score equals the base 0.5 plus the brand, model,
condition and sample-count bonuses, capped at 1.0, and always lies between
0.5 and 1.0. -/
theorem C6_confidence_formula (v : GeminiVisionResult) (p : PriceDataResult) :
    calculate_confidence v p =
      min (0.5 + (if truthyS v.brand then (0.15 : ℚ) else 0) +
           (if truthyS v.model then (0.15 : ℚ) else 0) +
           (if truthyS v.condition then (0.05 : ℚ) else 0) +
           (if p.source_count ≥ 10 then (0.15 : ℚ)
            else if p.source_count ≥ 5 then (0.10 : ℚ) else 0)) 1 ∧
    (0.5 : ℚ) ≤ calculate_confidence v p ∧ calculate_confidence v p ≤ 1 := by
  refine ⟨?_, ?_, ?_⟩
  · simp only [calculate_confidence]
    split_ifs <;> norm_num
  · simp only [calculate_confidence]
    apply le_min _ (by norm_num)
    split_ifs <;> norm_num
  · exact min_le_right _ _

/-! ### Claim C7 -/

/-- C7 counterexample: a summary with min_price present but equal to 0,
max_price 1000 and average 100 has a wide spread (1000 > 0.3 × 100), so the
claim prescribes the range display — but the code's Python truthiness test
treats the zero bound as absent and shows the single value "~$100". -/
theorem C7_counterexample :
    format_price_range { min_price := some 0, max_price := some 1000,
                         avg_price := some 100, currency := "USD", source_count := 0 } =
      "~$100" ∧
    ("~$100" : String) ≠ "$0 - $1000" := by
  constructor
  · decide
  · decide

/-- C7 (amended): the display equals the amended rule everywhere — "Price
unavailable" without an average; with both bounds present and non-zero the
tight-spread single value or the low-high range; in every other case the
single approximate value — and the two spec instances hold: 95/105/100 gives
"~$100" and 50/200/100 gives "$50 - $200". -/
theorem C7_display_rule :
    (∀ p : PriceDataResult, format_price_range p = displaySpec p) ∧
    format_price_range { min_price := some 95, max_price := some 105,
                         avg_price := some 100, currency := "USD", source_count := 0 } =
      "~$100" ∧
    format_price_range { min_price := some 50, max_price := some 200,
                         avg_price := some 100, currency := "USD", source_count := 0 } =
      "$50 - $200" := by
  refine ⟨?_, by decide, by decide⟩
  intro p
  cases p with
  | mk mn mx av cur sc =>
    cases av with
    | none => rfl
    | some a =>
      cases mn with
      | none => rfl
      | some lo =>
        cases mx with
        | none => simp [format_price_range, displaySpec, truthyQ]
        | some hi =>
          by_cases hlo : lo = 0 <;> by_cases hhi : hi = 0 <;>
            simp [format_price_range, displaySpec, truthyQ, hlo, hhi, mul_comm]

/-! ### Claim C8 -/

/-- C8 counterexample: with neither brand nor model and a description whose
first sentence is 60 characters, the item name is that full 60-character
sentence — the first-sentence branch is not bounded by 50 characters. -/
theorem C8_counterexample :
    format_item_name
      { raw_description := some (String.mk (List.replicate 60 'a') ++ ". x") } =
      String.mk (List.replicate 60 'a') ∧
    ¬ (pyLen (String.mk (List.replicate 60 'a')) ≤ 50) := by
  constructor
  · decide
  · decide

/-- C8 (amended): with neither brand nor model truthy, the item name follows
the description rule of `itemNameSpec`: the text before the first ". " of
the stripped description when such a boundary exists (unbounded length);
else, when the stripped description exceeds 50 characters, its first 50
characters cut back to before the last space among them (kept whole when
they contain none) with "..." appended; else the stripped description
itself; without a truthy description, category + " Item" when the category
is truthy and distinct from "Unknown", else "Unidentified Item". -/
theorem C8_item_name (v : GeminiVisionResult)
    (hb : truthyS v.brand = false) (hm : truthyS v.model = false) :
    format_item_name v = itemNameSpec v := by
  obtain ⟨b, m, cond, col, cat, rd⟩ := v
  dsimp only at hb hm
  unfold format_item_name itemNameSpec itemNameCategoryFallback
  dsimp only
  rw [hb, hm]
  simp only [if_false, Bool.false_eq_true, List.append_nil, List.isEmpty_nil, Bool.not_true]
  cases rd with
  | none =>
    cases cat with
    | none => rfl
    | some c => rfl
  | some s =>
    cases hsl : s.toList with
    | nil =>
      simp only [truthyS, hsl, List.isEmpty_nil, Bool.not_true, if_false, Bool.false_eq_true]
      cases cat with
      | none => rfl
      | some c => rfl
    | cons c cs =>
      simp only [truthyS, hsl, List.isEmpty_cons, Bool.not_false, if_true, Option.getD_some]
      cases hsp : pySplit (pyStrip s) ". " with
      | nil => simp [hsp]
      | cons x tl =>
        cases tl with
        | nil => simp [hsp]
        | cons y tl' => simp [hsp]

/-- C8 witness: the amended theorem applied at a short plain description. -/
theorem C8_item_name_witness :
    truthyS (none : Option String) = false ∧
    format_item_name ⟨none, none, none, none, none, some "Hello world"⟩ =
      itemNameSpec ⟨none, none, none, none, none, some "Hello world"⟩ :=
  ⟨by decide, C8_item_name ⟨none, none, none, none, none, some "Hello world"⟩
    (by decide) (by decide)⟩

/-! ### Claim C9 -/

/-- C9: the IQR filter never empties a non-empty price list — the element at
the Q1 position always lies within the filter bounds — so the fall-back
branch of `get_price_data` that restores the original list is unreachable:
the filtered list used for statistics is always the filter's own output. -/
theorem C9_filter_never_empties (prices : List ℚ) (h : prices ≠ []) :
    remove_outliers prices ≠ [] ∧ outlier_filtered prices = remove_outliers prices := by
  have h1 := remove_outliers_ne_nil h
  refine ⟨h1, ?_⟩
  have h2 : (remove_outliers prices).isEmpty = false := by
    cases hx : remove_outliers prices with
    | nil => exact absurd hx h1
    | cons a t => rfl
  simp [outlier_filtered, h2]

/-- C9 witness: the theorem applied at the four-price list 1, 2, 3, 100. -/
theorem C9_filter_never_empties_witness :
    ([1, 2, 3, 100] : List ℚ) ≠ [] ∧
    (remove_outliers [1, 2, 3, 100] ≠ [] ∧
     outlier_filtered [1, 2, 3, 100] = remove_outliers [1, 2, 3, 100]) :=
  ⟨by decide, C9_filter_never_empties [1, 2, 3, 100] (by decide)⟩

/-! ### Claim C10 -/

/-- C10: the confidence score depends only on the truthiness of brand, model
and condition and on the source count — any two input pairs agreeing on
those agree on the score, whatever the field texts or price values. -/
theorem C10_confidence_noninterference
    (v1 v2 : GeminiVisionResult) (p1 p2 : PriceDataResult)
    (hb : truthyS v1.brand = truthyS v2.brand)
    (hm : truthyS v1.model = truthyS v2.model)
    (hc : truthyS v1.condition = truthyS v2.condition)
    (hs : p1.source_count = p2.source_count) :
    calculate_confidence v1 p1 = calculate_confidence v2 p2 := by
  unfold calculate_confidence
  rw [hb, hm, hc, hs]

/-- C10 witness: the theorem applied at two pairs differing in every text
and every price but agreeing on the presence flags and source count. -/
theorem C10_confidence_noninterference_witness :
    truthyS (some "Nike") = truthyS (some "Apple") ∧
    calculate_confidence
        ⟨some "Nike", none, some "Good", some "Red", some "Sneakers", some "shoe"⟩
        ⟨some 10, some 20, some 15, "USD", 7⟩ =
      calculate_confidence
        ⟨some "Apple", none, some "Mint", none, none, none⟩
        ⟨none, none, none, "EUR", 7⟩ :=
  ⟨by decide,
   C10_confidence_noninterference
     ⟨some "Nike", none, some "Good", some "Red", some "Sneakers", some "shoe"⟩
     ⟨some "Apple", none, some "Mint", none, none, none⟩
     ⟨some 10, some 20, some 15, "USD", 7⟩
     ⟨none, none, none, "EUR", 7⟩
     (by decide) (by decide) (by decide) (by decide)⟩
